import Mathlib

/-!
# Verification of the node-red-contrib-condition-monitoring model-serving bridges

Shallow embedding of the three Python bridge programs of the repository:

* `src/nodes/python_bridge.py` — the streaming (stdin/stdout JSON-lines) bridge,
* `src/nodes/max_bridge.py`    — the HTTP (Flask) MAX/ONNX bridge,
* `src/nodes/coral_inference.py` — the one-shot Coral Edge-TPU helper.

External numeric backends (Keras, scikit-learn, TFLite, MAX Engine, ONNX
Runtime, PyCoral) are opaque capability providers; they are modelled as
environment records of abstract functions (`Except String _` results stand for
Python exceptions).  Wall-clock latencies enter the handlers as explicit
rational parameters.  Machine floating point is modelled by `ℚ`; the claims
checked here are insensitive to rounding at the chosen inputs.
-/

/-! ## Shared wire-value / tensor codec (numpy modelling) -/

/-- A nested numeric JSON value, as accepted by `np.array(input_data)`. -/
inductive NList where
  | num (x : ℚ)
  | arr (xs : List NList)

mutual
def NList.decEq : (a b : NList) → Decidable (a = b)
  | .num x, .num y =>
      if h : x = y then .isTrue (by rw [h]) else .isFalse (by simp [h])
  | .num _, .arr _ => .isFalse (by simp)
  | .arr _, .num _ => .isFalse (by simp)
  | .arr xs, .arr ys =>
      match NList.decEqList xs ys with
      | .isTrue h => .isTrue (by rw [h])
      | .isFalse h => .isFalse (by simp [h])
def NList.decEqList : (a b : List NList) → Decidable (a = b)
  | [], [] => .isTrue rfl
  | [], _ :: _ => .isFalse (by simp)
  | _ :: _, [] => .isFalse (by simp)
  | x :: xs, y :: ys =>
      match NList.decEq x y, NList.decEqList xs ys with
      | .isTrue h1, .isTrue h2 => .isTrue (by rw [h1, h2])
      | .isFalse h1, _ => .isFalse (by simp [h1])
      | _, .isFalse h2 => .isFalse (by simp [h2])
end

instance : DecidableEq NList := NList.decEq

/-- The numpy shape of a (rectangular) nested list, as `np.array` infers it:
a scalar has shape `[]`, an array takes its length followed by the shape of
its first element. -/
def nshape : NList → List Nat
  | .num _ => []
  | .arr [] => [0]
  | .arr (y :: ys) => (ys.length + 1) :: nshape y

mutual
/-- Row-major flattening of a nested list. -/
def nflatten : NList → List ℚ
  | .num x => [x]
  | .arr xs => nflattenList xs
def nflattenList : List NList → List ℚ
  | [] => []
  | y :: ys => nflatten y ++ nflattenList ys
end

/-- A dense tensor: an ndarray is its shape together with its row-major data. -/
structure TensorQ where
  shape : List Nat
  data : List ℚ
deriving DecidableEq

/-- `np.array(input_data, dtype=np.float32)` on a nested list. -/
def toTensor (n : NList) : TensorQ :=
  { shape := nshape n, data := nflatten n }

/-- The batch-dimension rule shared verbatim by `python_bridge.handle_predict`,
`max_bridge.predict_onnx` and `max_bridge.predict_max`:
`if len(input_array.shape) == 1: input_array = input_array.reshape(1, -1)`. -/
def ensureBatch (t : TensorQ) : TensorQ :=
  if t.shape.length = 1 then { shape := 1 :: t.shape, data := t.data } else t

/-- Input preparation of the bridges: numpy conversion followed by the
rank-1 batch reshape. -/
def prepareInput (raw : NList) : TensorQ :=
  ensureBatch (toTensor raw)

/-- `os.path.basename`: the part of the path after the last `/`. -/
def basename (p : String) : String :=
  ⟨p.data.foldl (fun acc c => if c = '/' then [] else acc ++ [c]) []⟩

/-- The extension part of `os.path.splitext` applied to a path: the suffix of
the basename starting at its last dot, where leading dots of the basename do
not start an extension. -/
def splitextExt (p : String) : String :=
  let b := (basename p).data
  let lead := b.takeWhile (fun c => c = '.')
  let rest := b.drop lead.length
  if rest.any (fun c => c = '.') then
    ⟨'.' :: (rest.reverse.takeWhile (fun c => c ≠ '.')).reverse⟩
  else ""

/-- Does one character list start with another? -/
def beginsWith : List Char → List Char → Bool
  | [], _ => true
  | _ :: _, [] => false
  | a :: as, b :: bs => a = b && beginsWith as bs

/-- Does a character list contain another as a contiguous run? -/
def containsChars (needle : List Char) : List Char → Bool
  | [] => beginsWith needle []
  | c :: rest => beginsWith needle (c :: rest) || containsChars needle rest

/-- Does `hay` contain `needle` as a substring?  (Used to state that an error
message mentions a path.) -/
def mentions (needle hay : String) : Bool :=
  containsChars needle.data hay.data

/-- ASCII lowering of one character (Python `str.lower` on ASCII text). -/
def lowerChar (c : Char) : Char :=
  if 'A' ≤ c ∧ c ≤ 'Z' then Char.ofNat (c.toNat + 32) else c

/-- ASCII `str.lower`. -/
def lowerString (s : String) : String :=
  ⟨s.data.map lowerChar⟩

/-- Python `str(x)` of an optional string, `None` printing as `"None"`
(f-string interpolation of a possibly-missing field). -/
def optStr : Option String → String
  | none => "None"
  | some s => s

/-! ## Coral Edge-TPU helper (`coral_inference.py`) quantization codec -/

/-- `np.round`: round half to even (banker's rounding), on exact rationals. -/
def roundHalfEven (x : ℚ) : ℤ :=
  let f := ⌊x⌋
  let r := x - f
  if r < 1/2 then f
  else if 1/2 < r then f + 1
  else if f % 2 = 0 then f else f + 1

/-- `.astype(np.int8)` on an integer value: two's-complement truncation into
`[-128, 127]` (numpy wraps out-of-range values; it does not saturate). -/
def toInt8 (z : ℤ) : ℤ :=
  (z + 128) % 256 - 128

/-- Truncation toward zero: the C float-to-integer conversion performed by a
numpy dtype cast of a float value. -/
def truncQ (x : ℚ) : ℤ :=
  if 0 ≤ x then ⌊x⌋ else ⌈x⌉

/-- The encode path `coral_inference.py` actually executes for an `int8`
model fed float data.  Line 50, `np.array(input_data,
dtype=input_details['dtype'])`, casts every supplied value straight to int8 —
truncation toward zero with two's-complement wraparound.  The array is
therefore already int8 when line 58 is reached, so the quantization branch of
lines 60–62 (`np.round(input_array / scale + zero_point).astype(np.int8)`,
guarded by `input_array.dtype == np.float32`) is dead code: `scale` and
`zero_point` are never applied on the encode side.  The parameters are kept
so that this independence is a provable statement. -/
def coralEncodeInput (x scale zero_point : ℚ) : ℤ :=
  toInt8 (truncQ x)

/-- The decode direction of `coral_inference.py` lines 71–74 for an `int8`
model output: `(output_data.astype(np.float32) - zero_point) * scale`.
(This branch is live: the interpreter's output tensor of a quantized model
carries dtype int8.) -/
def dequantizeOutput (q : ℤ) (scale zero_point : ℚ) : ℚ :=
  ((q : ℚ) - zero_point) * scale

/-- Modelled from the spec's words (§4.2 rule 4), for comparison with
`quantizeInput`: `q = round(x / scale + zero_point)` **clamped** to the
integer type's range `[-128, 127]`. -/
def specQuantizeClamped (x scale zero_point : ℚ) : ℤ :=
  max (-128) (min 127 (roundHalfEven (x / scale + zero_point)))

/-- Modelled from the spec's words (§4.2 rule 5), for comparison with
`dequantizeOutput`: `x = (q - zero_point) * scale`. -/
def specDequantize (q : ℤ) (scale zero_point : ℚ) : ℚ :=
  ((q : ℚ) - zero_point) * scale

/-! ## HTTP bridge (`max_bridge.py`) -/

/-- The two inference backends of `max_bridge.py`. -/
inductive Backend where
  | maxEngine
  | onnx
deriving DecidableEq

/-- One `_models` entry of `max_bridge.py`: `{"model": ..., "backend": ...,
"path": ...}` — the native handle is opaque and is identified by its path. -/
structure ModelEntry where
  backend : Backend
  path : String
deriving DecidableEq

/-- The `_stats` dictionary of `max_bridge.py` (the wall-clock `start_time`
field is outside the model). -/
structure Stats where
  requests_total : Nat
  inference_total : Nat
  errors_total : Nat
  avg_inference_time_ms : ℚ
deriving DecidableEq

/-- `_stats` at process start. -/
def initStats : Stats :=
  { requests_total := 0, inference_total := 0, errors_total := 0,
    avg_inference_time_ms := 0 }

/-- The mutable state of the HTTP bridge: the `_models` dict (an association
list in insertion order) and `_stats`. -/
structure ServerState where
  models : List (String × ModelEntry)
  stats : Stats
deriving DecidableEq

/-- Metadata returned by `load_model_max`. -/
structure MaxMeta where
  input_names : List String
  output_names : List String
deriving DecidableEq

/-- Metadata returned by `load_model_onnx`. -/
structure OnnxMeta where
  input_names : List String
  output_names : List String
  input_shapes : List (List Int)
  providers : List String
deriving DecidableEq

/-- The metadata merged into a successful `/load` response body. -/
inductive LoadMeta where
  | maxMeta (m : MaxMeta)
  | onnxMeta (m : OnnxMeta)
deriving DecidableEq

/-- The external world of `max_bridge.py`: backend availability probed at
startup, the filesystem, and the opaque backend libraries.  `Except.error`
stands for a raised Python exception carrying its message. -/
structure MaxEnv where
  maxAvailable : Bool
  onnxAvailable : Bool
  /-- whether `get_inference_session()` yields a session when MAX is
  available (session creation itself can fail, leaving it `None`) -/
  maxSessionOk : Bool
  fileExists : String → Bool
  maxLoad : String → Except String MaxMeta
  onnxLoad : String → Except String OnnxMeta
  runMax : String → TensorQ → Except String NList
  runOnnx : String → TensorQ → Except String NList

/-- Is an `Except` result a success? -/
def exOk : Except String α → Bool
  | .ok _ => true
  | .error _ => false

/-- `load_model_max` (max_bridge.py lines 106–138): fails when no MAX session
is available, otherwise defers to `session.load`; on success the model is
stored with backend tag `"max"`. -/
def load_model_max (env : MaxEnv) (models : List (String × ModelEntry))
    (path mid : String) :
    Except String (List (String × ModelEntry) × LoadMeta) :=
  if env.maxAvailable && env.maxSessionOk then
    match env.maxLoad path with
    | .ok m => .ok (models ++ [(mid, { backend := .maxEngine, path := path })], .maxMeta m)
    | .error e => .error e
  else .error "MAX Engine session not available"

/-- `load_model_onnx` (max_bridge.py lines 141–175): defers to
`ort.InferenceSession`; on success the model is stored with backend tag
`"onnx"`. -/
def load_model_onnx (env : MaxEnv) (models : List (String × ModelEntry))
    (path mid : String) :
    Except String (List (String × ModelEntry) × LoadMeta) :=
  match env.onnxLoad path with
  | .ok m => .ok (models ++ [(mid, { backend := .onnx, path := path })], .onnxMeta m)
  | .error e => .error e

/-- The JSON body (plus HTTP status) of a `/load` response; `none` fields are
keys absent from the body. -/
structure LoadResponse where
  success : Bool
  status : Nat
  message : Option String
  model_id : Option String
  backend : Option Backend
  input_names : Option (List String)
  output_names : Option (List String)
  input_shapes : Option (List (List Int))
  providers : Option (List String)
  load_time_ms : Option ℚ
  error : Option String
deriving DecidableEq

/-- An all-`none` `/load` response skeleton. -/
def emptyLoadResponse : LoadResponse :=
  { success := false, status := 200, message := none, model_id := none,
    backend := none, input_names := none, output_names := none,
    input_shapes := none, providers := none, load_time_ms := none,
    error := none }

/-- The 200 body of a fresh successful load (max_bridge.py lines 324–329). -/
def loadOkResponse (mid : String) (t : ℚ) : LoadMeta → LoadResponse
  | .maxMeta m =>
    { emptyLoadResponse with
      success := true,
      message := some ("Model " ++ mid ++ " loaded successfully"),
      load_time_ms := some t, model_id := some mid, backend := some .maxEngine,
      input_names := some m.input_names, output_names := some m.output_names }
  | .onnxMeta m =>
    { emptyLoadResponse with
      success := true,
      message := some ("Model " ++ mid ++ " loaded successfully"),
      load_time_ms := some t, model_id := some mid, backend := some .onnx,
      input_names := some m.input_names, output_names := some m.output_names,
      input_shapes := some m.input_shapes, providers := some m.providers }

/-- `POST /load` (max_bridge.py lines 280–337).  `model_path`/`model_id_field`
are the request-body fields (absent = `none`); `prefer` is the `backend` field
defaulted to `"auto"`; `loadTime` is the measured wall-clock load time. -/
def load_model (env : MaxEnv) (st : ServerState) (model_path : Option String)
    (model_id_field : Option String) (prefer : String) (loadTime : ℚ) :
    LoadResponse × ServerState :=
  let st := { st with stats := { st.stats with
                requests_total := st.stats.requests_total + 1 } }
  -- `model_id = data.get('model_id') or os.path.basename(model_path)`
  let midGiven := if model_id_field = some "" then none else model_id_field
  match model_path, midGiven with
  | none, none =>
      -- `os.path.basename(None)` raises TypeError, caught by the handler
      ({ emptyLoadResponse with
           status := 500,
           error := some "expected str, bytes or os.PathLike object, not NoneType" },
       { st with stats := { st.stats with
           errors_total := st.stats.errors_total + 1 } })
  | none, some _ =>
      ({ emptyLoadResponse with
           status := 400,
           error := some "model_path required" }, st)
  | some p, midg =>
    let mid := midg.getD (basename p)
    if p = "" then
      ({ emptyLoadResponse with
           status := 400,
           error := some "model_path required" }, st)
    else
      match List.lookup mid st.models with
      | some entry =>
          ({ emptyLoadResponse with
               success := true,
               message := some ("Model " ++ mid ++ " already loaded"),
               model_id := some mid, backend := some entry.backend }, st)
      | none =>
        if env.fileExists p = false then
          ({ emptyLoadResponse with
               status := 404,
               error := some ("Model file not found: " ++ p) }, st)
        else
          let attempt :=
            if prefer = "max" ∨ (prefer = "auto" ∧ env.maxAvailable) then
              match load_model_max env st.models p mid with
              | .ok r => .ok r
              | .error e =>
                if env.onnxAvailable ∧ prefer = "auto" then
                  load_model_onnx env st.models p mid
                else .error e
            else load_model_onnx env st.models p mid
          match attempt with
          | .ok (models', meta) =>
              (loadOkResponse mid loadTime meta, { st with models := models' })
          | .error e =>
              ({ emptyLoadResponse with
                   status := 500, error := some e },
               { st with stats := { st.stats with
                   errors_total := st.stats.errors_total + 1 } })

/-- Dispatch an inference call to the model's backend library
(`predict_max` / `predict_onnx` bodies, max_bridge.py lines 196–239: the
prepared tensor is handed to `model.execute` / `session.run`). -/
def runBackend (env : MaxEnv) (entry : ModelEntry) (t : TensorQ) :
    Except String NList :=
  match entry.backend with
  | .maxEngine => env.runMax entry.path t
  | .onnx => env.runOnnx entry.path t

/-- `predict_max` (max_bridge.py lines 178–208): look the model up, convert a
list input to `np.float32`, apply the rank-1 batch reshape, execute. -/
def predict_max (env : MaxEnv) (models : List (String × ModelEntry))
    (model_id : String) (input_data : NList) : Except String NList :=
  match List.lookup model_id models with
  | none => .error ("Model " ++ model_id ++ " not loaded")
  | some entry => env.runMax entry.path (prepareInput input_data)

/-- `predict_onnx` (max_bridge.py lines 211–239): same preparation, executed
through ONNX Runtime. -/
def predict_onnx (env : MaxEnv) (models : List (String × ModelEntry))
    (model_id : String) (input_data : NList) : Except String NList :=
  match List.lookup model_id models with
  | none => .error ("Model " ++ model_id ++ " not loaded")
  | some entry => env.runOnnx entry.path (prepareInput input_data)

/-- The JSON body (plus HTTP status) of a `/predict` response. -/
structure PredictResponse where
  success : Bool
  status : Nat
  prediction : Option NList
  inference_time_ms : Option ℚ
  backend : Option Backend
  error : Option String
deriving DecidableEq

/-- `POST /predict` (max_bridge.py lines 340–390).  `latency` is the measured
wall-clock inference time in milliseconds.  Note that `inference_total` is
incremented on entry, before any validation, while the running mean is updated
only on the success path using the already-incremented count. -/
def predict (env : MaxEnv) (st : ServerState) (model_id : Option String)
    (input_data : Option NList) (latency : ℚ) :
    PredictResponse × ServerState :=
  let st := { st with stats := { st.stats with
                requests_total := st.stats.requests_total + 1,
                inference_total := st.stats.inference_total + 1 } }
  let mid := optStr model_id
  if model_id = none ∨ model_id = some "" then
    ({ success := false, status := 400, prediction := none,
       inference_time_ms := none, backend := none,
       error := some "model_id required" }, st)
  else
    match input_data with
    | none =>
        ({ success := false, status := 400, prediction := none,
           inference_time_ms := none, backend := none,
           error := some "input_data required" }, st)
    | some inp =>
      match List.lookup mid st.models with
      | none =>
          ({ success := false, status := 404, prediction := none,
             inference_time_ms := none, backend := none,
             error := some ("Model " ++ mid ++ " not loaded") }, st)
      | some entry =>
        match runBackend env entry (prepareInput inp) with
        | .ok out =>
            let n := st.stats.inference_total
            let avg := (st.stats.avg_inference_time_ms * ((n : ℚ) - 1)
                          + latency) / (n : ℚ)
            ({ success := true, status := 200, prediction := some out,
               inference_time_ms := some latency,
               backend := some entry.backend, error := none },
             { st with stats := { st.stats with
                 avg_inference_time_ms := avg } })
        | .error e =>
            ({ success := false, status := 500, prediction := none,
               inference_time_ms := none, backend := none,
               error := some e },
             { st with stats := { st.stats with
                 errors_total := st.stats.errors_total + 1 } })

/-- The JSON body (plus HTTP status) of an `/unload` response. -/
structure UnloadResponse where
  success : Bool
  status : Nat
  message : Option String
  error : Option String
deriving DecidableEq

/-- `POST /unload` (max_bridge.py lines 393–420). -/
def unload_model (st : ServerState) (model_id : Option String) :
    UnloadResponse × ServerState :=
  let st := { st with stats := { st.stats with
                requests_total := st.stats.requests_total + 1 } }
  if model_id = none ∨ model_id = some "" then
    ({ success := false, status := 400, message := none,
       error := some "model_id required" }, st)
  else
    let mid := optStr model_id
    match List.lookup mid st.models with
    | none =>
        ({ success := false, status := 404, message := none,
           error := some ("Model " ++ mid ++ " not loaded") }, st)
    | some _ =>
        ({ success := true, status := 200,
           message := some ("Model " ++ mid ++ " unloaded"), error := none },
         { st with models := st.models.filter (fun kv => kv.1 ≠ mid) })

/-- The JSON body (plus HTTP status) of a `/batch_predict` response. -/
structure BatchResponse where
  success : Bool
  status : Nat
  predictions : Option NList
  batch_size : Option Nat
  inference_time_ms : Option ℚ
  per_sample_ms : Option ℚ
  backend : Option Backend
  error : Option String
deriving DecidableEq

/-- `POST /batch_predict` (max_bridge.py lines 423–468).  Inputs are stacked
into one numpy batch; `inference_total` is increased by the batch size only
after a successful backend call, and the running mean is never touched. -/
def batch_predict (env : MaxEnv) (st : ServerState) (model_id : Option String)
    (inputs : Option (List NList)) (latency : ℚ) :
    BatchResponse × ServerState :=
  let st := { st with stats := { st.stats with
                requests_total := st.stats.requests_total + 1 } }
  if model_id = none ∨ model_id = some "" ∨ inputs = none ∨ inputs = some [] then
    ({ success := false, status := 400, predictions := none,
       batch_size := none, inference_time_ms := none, per_sample_ms := none,
       backend := none, error := some "model_id and inputs required" }, st)
  else
    let mid := optStr model_id
    let ins := inputs.getD []
    match List.lookup mid st.models with
    | none =>
        ({ success := false, status := 404, predictions := none,
           batch_size := none, inference_time_ms := none,
           per_sample_ms := none, backend := none,
           error := some ("Model " ++ mid ++ " not loaded") }, st)
    | some entry =>
      -- `batch_input = np.array(inputs)`; `predict_max`/`predict_onnx` then
      -- pass the ndarray through (already an array) and apply the rank-1 rule
      match runBackend env entry (prepareInput (NList.arr ins)) with
      | .ok out =>
          ({ success := true, status := 200, predictions := some out,
             batch_size := some ins.length,
             inference_time_ms := some latency,
             per_sample_ms := some (latency / (ins.length : ℚ)),
             backend := some entry.backend, error := none },
           { st with stats := { st.stats with
               inference_total := st.stats.inference_total + ins.length } })
      | .error e =>
          ({ success := false, status := 500, predictions := none,
             batch_size := none, inference_time_ms := none,
             per_sample_ms := none, backend := none, error := some e },
           { st with stats := { st.stats with
               errors_total := st.stats.errors_total + 1 } })

/-! ## Streaming bridge (`python_bridge.py`) -/

/-- The backend family tags stored in `_model_types`. -/
inductive MType where
  | keras
  | sklearn
  | tflite
deriving DecidableEq

/-- The mutable state of the streaming bridge: the `_models` and
`_model_types` dictionaries (association lists in insertion order; native
model handles are opaque and identified by a number). -/
structure PyState where
  models : List (String × Nat)
  model_types : List (String × MType)
deriving DecidableEq

/-- The state at process start: both caches empty. -/
def initPyState : PyState := { models := [], model_types := [] }

/-- The external world of the streaming bridge: the filesystem and the opaque
model libraries (`keras.models.load_model`, `pickle`/`joblib`, the TFLite
interpreter, and the per-family inference calls of `handle_predict`).
`Except.error` stands for a raised Python exception carrying its message. -/
structure PyEnv where
  fileExists : String → Bool
  kerasLoad : String → Except String Nat
  sklearnLoad : String → Except String Nat
  tfliteLoad : String → Except String Nat
  run : Nat → MType → TensorQ → Except String NList
  packages : List String

/-- The `result` payload of a streaming response, one constructor per JSON
object shape emitted by `python_bridge.py`. -/
inductive PyResult where
  /-- `{"message", "model_id", "model_type"}` — fresh successful load -/
  | load (message : String) (model_id : String) (model_type : MType)
  /-- `{"message"}` — already-loaded, unloaded, pong, ready, shutdown -/
  | plain (message : String)
  /-- a bare prediction value -/
  | prediction (out : NList)
  /-- the `status` payload -/
  | statusInfo (loaded_models : List String)
      (model_types : List (String × MType)) (packages : List String)
deriving DecidableEq

/-- One JSON line written by `send_response`: absent keys are `none`. -/
structure PyResponse where
  id : String
  success : Bool
  result : Option PyResult
  error : Option String
deriving DecidableEq

/-- `handle_load_model` (python_bridge.py lines 85–117). -/
def handle_load_model (env : PyEnv) (st : PyState) (msg_id : String)
    (model_path : Option String) (model_id_field : Option String) :
    PyResponse × PyState :=
  -- `if not model_id: model_id = os.path.basename(model_path)`
  let midGiven := if model_id_field = some "" then none else model_id_field
  match midGiven, model_path with
  | none, none =>
      -- `os.path.basename(None)` raises TypeError, caught by the main loop
      ({ id := msg_id, success := false, result := none,
         error := some "Error: expected str, bytes or os.PathLike object, not NoneType" },
       st)
  | midg, mpath =>
    let model_id := (midg.or (mpath.map basename)).getD ""
    if (List.lookup model_id st.models).isSome then
      ({ id := msg_id, success := true,
         result := some (.plain ("Model " ++ model_id ++ " already loaded")),
         error := none }, st)
    else
      match mpath with
      | none =>
          -- `os.path.splitext(None)` raises TypeError, caught by the main loop
          ({ id := msg_id, success := false, result := none,
             error := some "Error: expected str, bytes or os.PathLike object, not NoneType" },
           st)
      | some p =>
        let ext := lowerString (splitextExt p)
        let finish : Except String Nat → MType → PyResponse × PyState :=
          fun res ty =>
            match res with
            | .ok handle =>
                ({ id := msg_id, success := true,
                   result := some (.load ("Model " ++ model_id ++ " loaded successfully")
                                     model_id ty),
                   error := none },
                 { models := st.models ++ [(model_id, handle)],
                   model_types := st.model_types ++ [(model_id, ty)] })
            | .error e =>
                ({ id := msg_id, success := false, result := none,
                   error := some e }, st)
        if ext = ".keras" ∨ ext = ".h5" then
          finish (env.kerasLoad p) .keras
        else if ext = ".pkl" ∨ ext = ".joblib" then
          finish (env.sklearnLoad p) .sklearn
        else if ext = ".tflite" then
          finish (env.tfliteLoad p) .tflite
        else
          ({ id := msg_id, success := false, result := none,
             error := some ("Unsupported model format: " ++ ext) }, st)

/-- `handle_predict` (python_bridge.py lines 120–174). -/
def handle_predict (env : PyEnv) (st : PyState) (msg_id : String)
    (model_id : Option String) (input_data : Option NList) :
    PyResponse × PyState :=
  let mid := optStr model_id
  match model_id.bind (fun k => List.lookup k st.models) with
  | none =>
      ({ id := msg_id, success := false, result := none,
         error := some ("Model " ++ mid ++ " not loaded") }, st)
  | some handle =>
    match model_id.bind (fun k => List.lookup k st.model_types) with
    | none =>
        -- `_model_types[model_id]` raises KeyError, caught by the main loop
        ({ id := msg_id, success := false, result := none,
           error := some ("Error: " ++ mid) }, st)
    | some ty =>
      match input_data with
      | none =>
          -- `np.array(None, dtype=np.float32)` raises, caught by the handler
          ({ id := msg_id, success := false, result := none,
             error := some "float() argument must be a string or a real number, not NoneType" },
           st)
      | some inp =>
        match env.run handle ty (prepareInput inp) with
        | .ok out =>
            ({ id := msg_id, success := true,
               result := some (.prediction out), error := none }, st)
        | .error e =>
            ({ id := msg_id, success := false, result := none,
               error := some e }, st)

/-- `handle_unload_model` (python_bridge.py lines 177–184). -/
def handle_unload_model (st : PyState) (msg_id : String)
    (model_id : Option String) : PyResponse × PyState :=
  match model_id.bind (fun k => List.lookup k st.models) with
  | some _ =>
      let mid := optStr model_id
      ({ id := msg_id, success := true,
         result := some (.plain ("Model " ++ mid ++ " unloaded")),
         error := none },
       { models := st.models.filter (fun kv => kv.1 ≠ mid),
         model_types := st.model_types.filter (fun kv => kv.1 ≠ mid) })
  | none =>
      ({ id := msg_id, success := false, result := none,
         error := some ("Model " ++ optStr model_id ++ " not loaded") }, st)

/-- `handle_status` (python_bridge.py lines 187–220). -/
def handle_status (env : PyEnv) (st : PyState) (msg_id : String) :
    PyResponse × PyState :=
  ({ id := msg_id, success := true,
     result := some (.statusInfo (st.models.map Prod.fst) st.model_types
                       env.packages),
     error := none }, st)

/-- One parsed JSON line of the streaming protocol. -/
structure Msg where
  id : Option String
  command : String
  model_path : Option String
  model_id : Option String
  input_data : Option NList

/-- One iteration of the `main` read loop of `python_bridge.py`
(lines 237–276) on an already-parsed message: the single response written,
the successor state, and whether the loop keeps reading
(`false` only for `shutdown`). -/
def mainStep (env : PyEnv) (st : PyState) (m : Msg) :
    PyResponse × PyState × Bool :=
  let msg_id := m.id.getD "unknown"
  if m.command = "load_model" then
    let p := handle_load_model env st msg_id m.model_path m.model_id
    (p.1, p.2, true)
  else if m.command = "predict" then
    let p := handle_predict env st msg_id m.model_id m.input_data
    (p.1, p.2, true)
  else if m.command = "unload_model" then
    let p := handle_unload_model st msg_id m.model_id
    (p.1, p.2, true)
  else if m.command = "status" then
    let p := handle_status env st msg_id
    (p.1, p.2, true)
  else if m.command = "shutdown" then
    ({ id := msg_id, success := true,
       result := some (.plain "Shutting down"), error := none }, st, false)
  else if m.command = "ping" then
    ({ id := msg_id, success := true, result := some (.plain "pong"),
       error := none }, st, true)
  else
    ({ id := msg_id, success := false, result := none,
       error := some ("Unknown command: " ++ m.command) }, st, true)

/-! ## Helper lemmas -/

theorem lookup_filter_key {α : Type} (l : List (String × α)) (k : String) :
    List.lookup k (l.filter (fun kv => kv.1 ≠ k)) = none := by
  induction l with
  | nil => rfl
  | cons x xs ih =>
      obtain ⟨k', v⟩ := x
      by_cases hx : k' = k
      · simpa [List.filter_cons, hx] using ih
      · have hbeq : (k == k') = false := beq_eq_false_iff_ne.mpr (Ne.symm hx)
        simpa [List.filter_cons, hx, List.lookup, hbeq] using ih

theorem map_fst_filter_key {α : Type} (l : List (String × α)) (k : String) :
    (l.filter (fun kv => kv.1 ≠ k)).map Prod.fst
      = (l.map Prod.fst).filter (fun s => s ≠ k) := by
  induction l with
  | nil => rfl
  | cons x xs ih =>
      obtain ⟨k', v⟩ := x
      by_cases hx : k' = k <;>
        simpa [List.filter_cons, hx] using ih

/-- A concrete streaming-bridge environment used by witnesses: no ML libraries
importable, empty filesystem. -/
def envDemo : PyEnv :=
  { fileExists := fun _ => false,
    kerasLoad := fun _ => .error "No module named tensorflow",
    sklearnLoad := fun _ => .error "No module named sklearn",
    tfliteLoad := fun _ => .error "No module named tflite_runtime",
    run := fun _ _ _ => .error "not implemented",
    packages := [] }

/-! ## C9 — unknown command on the streaming transport -/

/-- C9: on the streaming transport, a request whose command is outside the
recognized set {load_model, predict, unload_model, status, shutdown, ping}
yields exactly one response, with `success = false`, error
`"Unknown command: <name>"` and the request's `id`, the state is untouched,
and the read loop continues (the `Bool` component is `true`). -/
theorem C9_unknown_command (env : PyEnv) (st : PyState) (m : Msg) (i : String)
    (hid : m.id = some i)
    (h : ¬ (m.command = "load_model" ∨ m.command = "predict" ∨
            m.command = "unload_model" ∨ m.command = "status" ∨
            m.command = "shutdown" ∨ m.command = "ping")) :
    mainStep env st m =
      ({ id := i, success := false, result := none,
         error := some ("Unknown command: " ++ m.command) }, st, true) := by
  push_neg at h
  obtain ⟨h1, h2, h3, h4, h5, h6⟩ := h
  simp [mainStep, h1, h2, h3, h4, h5, h6, hid]

/-- Witness for C9 at the concrete command `"frobnicate"`. -/
theorem C9_unknown_command_witness :
    mainStep envDemo initPyState
        { id := some "7", command := "frobnicate", model_path := none,
          model_id := none, input_data := none } =
      ({ id := "7", success := false, result := none,
         error := some ("Unknown command: " ++ "frobnicate") },
       initPyState, true) :=
  C9_unknown_command envDemo initPyState _ "7" rfl (by decide)

/-! ## C10 — `_models` / `_model_types` key alignment -/

/-- The implicit invariant of C10: the `_models` and `_model_types`
dictionaries of the streaming bridge hold exactly the same keys (here, in the
same insertion order). -/
def keysAligned (st : PyState) : Prop :=
  st.models.map Prod.fst = st.model_types.map Prod.fst

theorem handle_load_model_keysAligned (env : PyEnv) (st : PyState)
    (msg_id : String) (mp mi : Option String) (h : keysAligned st) :
    keysAligned (handle_load_model env st msg_id mp mi).2 := by
  unfold handle_load_model
  dsimp only
  repeat' split
  all_goals simp_all [keysAligned]

theorem handle_predict_state (env : PyEnv) (st : PyState) (msg_id : String)
    (mi : Option String) (inp : Option NList) :
    (handle_predict env st msg_id mi inp).2 = st := by
  unfold handle_predict
  repeat' split
  all_goals rfl

theorem handle_unload_model_keysAligned (st : PyState) (msg_id : String)
    (mi : Option String) (h : keysAligned st) :
    keysAligned (handle_unload_model st msg_id mi).2 := by
  unfold handle_unload_model
  split
  · unfold keysAligned
    dsimp only
    rw [map_fst_filter_key, map_fst_filter_key]
    unfold keysAligned at h
    rw [h]
  · exact h

/-- C10: after every handled streaming command, `_models` and `_model_types`
contain exactly the same keys — a successful load inserts into both, unload
deletes from both, a failed load touches neither. -/
theorem C10_registry_types_key_invariant (env : PyEnv) (st : PyState)
    (m : Msg) (h : keysAligned st) : keysAligned (mainStep env st m).2.1 := by
  unfold mainStep
  dsimp only
  repeat' split
  · exact handle_load_model_keysAligned env st _ _ _ h
  · rw [handle_predict_state]; exact h
  · exact handle_unload_model_keysAligned st _ _ h
  all_goals exact h

/-- Witness for C10: a successful load from the empty state keeps the two
dictionaries key-aligned. -/
theorem C10_registry_types_key_invariant_witness :
    keysAligned (mainStep
        { envDemo with sklearnLoad := fun _ => .ok 0 } initPyState
        { id := some "1", command := "load_model",
          model_path := some "models/demo.pkl", model_id := some "demo",
          input_data := none }).2.1 :=
  C10_registry_types_key_invariant _ initPyState _ rfl

/-! ## C8 — unload followed by predict -/

theorem handle_unload_model_removes (st : PyState) (i mid : String) :
    List.lookup mid ((handle_unload_model st i (some mid)).2).models = none := by
  unfold handle_unload_model
  split
  · exact lookup_filter_key st.models mid
  · next heq => simpa using heq

theorem unload_model_removes (mst : ServerState) (mid : String)
    (h : mid ≠ "") :
    List.lookup mid ((unload_model mst (some mid)).2).models = none := by
  unfold unload_model
  dsimp only
  rw [if_neg (by simp [h])]
  split
  · next heq => simpa using heq
  · exact lookup_filter_key mst.models mid

/-- A concrete HTTP-bridge environment used by witnesses: only ONNX Runtime
available, every file present, inference returning a constant. -/
def envMaxDemo : MaxEnv :=
  { maxAvailable := false, onnxAvailable := true, maxSessionOk := false,
    fileExists := fun _ => true,
    maxLoad := fun _ => .error "MAX Engine session not available",
    onnxLoad := fun _ => .ok { input_names := ["input"],
                               output_names := ["output"],
                               input_shapes := [[1, 4]],
                               providers := ["CPUExecutionProvider"] },
    runMax := fun _ _ => .error "MAX Engine session not available",
    runOnnx := fun _ _ => .ok (.num 0) }

/-- C8 counterexample: the claim quantifies over *every* model_id, but with
the (sendable) empty model_id the HTTP transport answers `unload` and the
following `predict` with the 400 validation error `"model_id required"`,
whose text does not indicate that the model is not loaded — not a
NotFound-class failure. -/
theorem C8_counterexample_empty_model_id :
    (let st1 := (unload_model { models := [], stats := initStats } (some "")).2
     let r := (predict envMaxDemo st1 (some "") (some (.num 1)) 1).1
     r.success = false ∧ r.status = 400 ∧
       r.error = some "model_id required" ∧
       mentions "not loaded" "model_id required" = false) := by
  decide

/-- C8 amended: on the streaming transport for *every* model_id — the empty
string included, since it is never a registry key — and on the HTTP
transport for every nonempty model_id, `unload` followed immediately by
`predict` on the same model_id yields `success = false` with error
`"Model <id> not loaded"` (HTTP status 404); the empty model_id on the HTTP
transport is instead rejected by the `"model_id required"` validation. -/
theorem C8_amended_unload_then_predict_not_loaded
    (penv : PyEnv) (pst : PyState) (i i' pmid : String) (pinp : Option NList)
    (menv : MaxEnv) (mst : ServerState) (mid : String) (minp : NList) (t : ℚ)
    (hmid : mid ≠ "") :
    ((handle_predict penv (handle_unload_model pst i (some pmid)).2 i'
        (some pmid) pinp).1 =
      { id := i', success := false, result := none,
        error := some ("Model " ++ pmid ++ " not loaded") }) ∧
    (let r := (predict menv (unload_model mst (some mid)).2 (some mid)
                 (some minp) t).1
     r.success = false ∧ r.status = 404 ∧
       r.error = some ("Model " ++ mid ++ " not loaded")) := by
  constructor
  · have h := handle_unload_model_removes pst i pmid
    unfold handle_predict
    simp [h, optStr]
  · have h := unload_model_removes mst mid hmid
    unfold predict
    dsimp only
    rw [if_neg (by simp [hmid])]
    simp [h, optStr]

/-- Witness for C8: the streaming transport at the *empty* model_id and the
HTTP transport at model_id `"demo"`. -/
theorem C8_amended_unload_then_predict_not_loaded_witness :
    ((handle_predict envDemo
        (handle_unload_model initPyState "1" (some "")).2 "2"
        (some "") (some (.num 1))).1 =
      { id := "2", success := false, result := none,
        error := some ("Model " ++ "" ++ " not loaded") }) ∧
    (let r := (predict envMaxDemo
                 (unload_model { models := [], stats := initStats }
                   (some "demo")).2
                 (some "demo") (some (.num 1)) 1).1
     r.success = false ∧ r.status = 404 ∧
       r.error = some ("Model " ++ "demo" ++ " not loaded")) :=
  C8_amended_unload_then_predict_not_loaded envDemo initPyState "1" "2"
    "" (some (.num 1)) envMaxDemo { models := [], stats := initStats }
    "demo" (.num 1) 1 (by decide)

/-! ## C1 — duplicate load is a no-op -/

/-- A streaming-bridge environment in which scikit-learn loads succeed. -/
def envPySk : PyEnv :=
  { envDemo with fileExists := fun _ => true, sklearnLoad := fun _ => .ok 0 }

/-- C1 counterexample: a second `load_model` for an already-loaded id
succeeds, but its result payload is only the `{"message"}` object
`"Model m already loaded"` — it omits the `model_id` and `model_type`
metadata of the first load's response, so the two responses' metadata are
not identical. -/
theorem C1_counterexample_duplicate_load_metadata_differs :
    (let first := handle_load_model envPySk initPyState "1"
        (some "m.pkl") (some "m")
     let second := handle_load_model envPySk first.2 "2"
        (some "m.pkl") (some "m")
     first.1.success = true ∧ second.1.success = true ∧
     first.1.result =
       some (.load "Model m loaded successfully" "m" .sklearn) ∧
     second.1.result = some (.plain "Model m already loaded") ∧
     first.1.result ≠ second.1.result) := by
  decide

/-- C1 amended: a second load of an already-present `model_id` performs no
second backend load (the whole outcome is independent of the backend
environment and of the measured load time), leaves the registry untouched,
and returns a success response saying the model is already loaded — but that
response is not identical to the first load's metadata: the streaming
transport returns only a message, the HTTP transport a message, the
`model_id` and the backend tag, without the input/output metadata of a fresh
load. -/
theorem C1_amended_duplicate_load_noop
    (penv : PyEnv) (pst : PyState) (i p mid : String) (h0 : Nat)
    (menv : MaxEnv) (mst : ServerState) (mp prefer : String) (t : ℚ)
    (e0 : ModelEntry)
    (hmid : mid ≠ "")
    (hpy : List.lookup mid pst.models = some h0)
    (hmax : List.lookup mid mst.models = some e0)
    (hmp : mp ≠ "") :
    (handle_load_model penv pst i (some p) (some mid) =
      ({ id := i, success := true,
         result := some (.plain ("Model " ++ mid ++ " already loaded")),
         error := none }, pst)) ∧
    (load_model menv mst (some mp) (some mid) prefer t =
      ({ emptyLoadResponse with
           success := true,
           message := some ("Model " ++ mid ++ " already loaded"),
           model_id := some mid, backend := some e0.backend },
       { mst with stats := { mst.stats with
           requests_total := mst.stats.requests_total + 1 } })) := by
  constructor
  · unfold handle_load_model
    simp [hmid, hpy, Option.or]
  · unfold load_model
    simp [hmid, hmp, hmax]

/-- Witness for C1 at a registry holding model `"m"` on both transports. -/
theorem C1_amended_duplicate_load_noop_witness :
    ((handle_load_model envPySk
        { models := [("m", 0)], model_types := [("m", .sklearn)] } "2"
        (some "m.pkl") (some "m")).1.success = true) ∧
    ((load_model envMaxDemo
        { models := [("m", { backend := .onnx, path := "m.onnx" })],
          stats := initStats }
        (some "m.onnx") (some "m") "auto" 1).2.models =
      [("m", { backend := .onnx, path := "m.onnx" })]) := by
  have h := C1_amended_duplicate_load_noop envPySk
      { models := [("m", 0)], model_types := [("m", .sklearn)] } "2" "m.pkl"
      "m" 0 envMaxDemo
      { models := [("m", { backend := .onnx, path := "m.onnx" })],
        stats := initStats }
      "m.onnx" "auto" 1 { backend := .onnx, path := "m.onnx" }
      (by decide) rfl rfl (by decide)
  exact ⟨by rw [h.1], by rw [h.2]⟩

/-! ## C7 — load with a nonexistent source path -/

theorem beginsWith_self_append (l rest : List Char) :
    beginsWith l (l ++ rest) = true := by
  induction l with
  | nil => rfl
  | cons a as ih => simp [beginsWith, ih]

theorem containsChars_append (pre l : List Char) :
    containsChars l (pre ++ l) = true := by
  induction pre with
  | nil =>
      cases l with
      | nil => rfl
      | cons c cs =>
          simpa [containsChars] using Or.inl (beginsWith_self_append (c :: cs) [])
  | cons c cs ih => simp [containsChars, ih]

/-- An error string of the form `prefix ++ path` mentions the path. -/
theorem mentions_append (pre s : String) : mentions s (pre ++ s) = true := by
  unfold mentions
  rw [String.data_append]
  exact containsChars_append pre.data s.data

/-- A streaming-bridge environment is faithful to a filesystem when each
model-loading library raises on a file that does not exist. -/
def PyEnv.failsOnMissing (env : PyEnv) : Prop :=
  ∀ p, env.fileExists p = false →
    exOk (env.kerasLoad p) = false ∧ exOk (env.sklearnLoad p) = false ∧
      exOk (env.tfliteLoad p) = false

/-- C7 counterexample: on the streaming transport the extension is examined
before the file is ever touched, so loading the nonexistent `missing.xyz`
fails with `"Unsupported model format: .xyz"` — `success = false` and no
registry entry, but not a NotFound-class error and the message does not
mention the path. -/
theorem C7_counterexample_unsupported_ext_no_path_mention :
    (envDemo.fileExists "missing.xyz" = false) ∧
    (let r := handle_load_model envDemo initPyState "9"
        (some "missing.xyz") none
     r.1.success = false ∧
       r.1.error = some "Unsupported model format: .xyz" ∧
       mentions "missing.xyz" "Unsupported model format: .xyz" = false ∧
       r.2 = initPyState) := by
  decide

/-- C7 amended: when `source_path` does not exist and the `model_id` is not
already loaded, the load fails with `success = false` and creates no registry
entry on both transports.  On the HTTP transport the response is exactly the
claimed NotFound: status 404 with `"Model file not found: <path>"`, which
mentions the path.  On the streaming transport no existence check exists:
with a recognized extension the failure is the backend library's exception,
with an unrecognized extension it is `"Unsupported model format: <ext>"`
(which does not mention the path). -/
theorem C7_amended_missing_file_load_fails
    (menv : MaxEnv) (mst : ServerState) (mp mid prefer : String) (t : ℚ)
    (penv : PyEnv) (pst : PyState) (i pp pmid : String)
    (hmp : mp ≠ "") (hmid : mid ≠ "")
    (hmex : menv.fileExists mp = false)
    (hmfresh : List.lookup mid mst.models = none)
    (hfs : penv.failsOnMissing)
    (hpex : penv.fileExists pp = false)
    (hpmid : pmid ≠ "")
    (hpfresh : List.lookup pmid pst.models = none) :
    (let r := load_model menv mst (some mp) (some mid) prefer t
     r.1.success = false ∧ r.1.status = 404 ∧
       r.1.error = some ("Model file not found: " ++ mp) ∧
       mentions mp ("Model file not found: " ++ mp) = true ∧
       r.2.models = mst.models) ∧
    (let r := handle_load_model penv pst i (some pp) (some pmid)
     r.1.success = false ∧ r.2 = pst) := by
  constructor
  · unfold load_model
    simp [hmp, hmid, hmex, hmfresh, mentions_append, emptyLoadResponse]
  · obtain ⟨hk, hs, ht⟩ := hfs pp hpex
    have hk' : ∃ e, penv.kerasLoad pp = .error e := by
      cases h : penv.kerasLoad pp
      · exact ⟨_, rfl⟩
      · rw [h] at hk; simp [exOk] at hk
    have hs' : ∃ e, penv.sklearnLoad pp = .error e := by
      cases h : penv.sklearnLoad pp
      · exact ⟨_, rfl⟩
      · rw [h] at hs; simp [exOk] at hs
    have ht' : ∃ e, penv.tfliteLoad pp = .error e := by
      cases h : penv.tfliteLoad pp
      · exact ⟨_, rfl⟩
      · rw [h] at ht; simp [exOk] at ht
    obtain ⟨ek, hke⟩ := hk'
    obtain ⟨es, hse⟩ := hs'
    obtain ⟨et, hte⟩ := ht'
    unfold handle_load_model
    simp only [hpmid, hpfresh, Option.or, hke, hse, hte, Option.some.injEq]
    split_ifs <;> simp_all
    all_goals split_ifs <;> simp_all
    next h =>
      obtain ⟨x, hx⟩ := h
      exact hpfresh pmid x hx rfl

/-- Witness for C7: a missing `missing.onnx` on the HTTP transport and a
missing `missing.pkl` on the streaming transport. -/
theorem C7_amended_missing_file_load_fails_witness :
    (let r := load_model { envMaxDemo with fileExists := fun _ => false }
        { models := [], stats := initStats } (some "missing.onnx")
        (some "demo") "auto" 1
     r.1.success = false ∧ r.1.status = 404 ∧
       r.1.error = some ("Model file not found: " ++ "missing.onnx") ∧
       mentions "missing.onnx"
         ("Model file not found: " ++ "missing.onnx") = true ∧
       r.2.models = ([] : List (String × ModelEntry))) ∧
    (let r := handle_load_model envDemo initPyState "1" (some "missing.pkl")
        (some "demo")
     r.1.success = false ∧ r.2 = initPyState) :=
  C7_amended_missing_file_load_fails
    { envMaxDemo with fileExists := fun _ => false }
    { models := [], stats := initStats } "missing.onnx" "demo" "auto" 1
    envDemo initPyState "1" "missing.pkl" "demo"
    (by decide) (by decide) rfl rfl
    (fun _ _ => ⟨rfl, rfl, rfl⟩) rfl (by decide) rfl

/-! ## C2 — auto backend fallback is invisible to the caller -/

/-- C2: with `backend = "auto"`, MAX available, and ONNX Runtime available,
the load attempts MAX first; (a) if the MAX attempt fails in any way and the
ONNX attempt succeeds, the caller receives the plain success response of an
ONNX load — the fallback is not caller-visible; (b) an error response is
returned iff both the MAX attempt and the ONNX attempt fail. -/
theorem C2_auto_fallback_invisible
    (env : MaxEnv) (st : ServerState) (p mid : String) (t : ℚ)
    (hmaxav : env.maxAvailable = true)
    (honnxav : env.onnxAvailable = true)
    (hp : p ≠ "") (hmid : mid ≠ "")
    (hex : env.fileExists p = true)
    (hfresh : List.lookup mid st.models = none) :
    (∀ meta, exOk (load_model_max env st.models p mid) = false →
       env.onnxLoad p = .ok meta →
       (load_model env st (some p) (some mid) "auto" t).1 =
         loadOkResponse mid t (.onnxMeta meta)) ∧
    ((load_model env st (some p) (some mid) "auto" t).1.success = false ↔
      (exOk (load_model_max env st.models p mid) = false ∧
       exOk (load_model_onnx env st.models p mid) = false)) := by
  constructor
  · intro meta hmaxfail honnx
    cases hm : load_model_max env st.models p mid with
    | ok r => rw [hm] at hmaxfail; simp [exOk] at hmaxfail
    | error e =>
        unfold load_model
        simp [hp, hmid, hex, hfresh, hmaxav, honnxav, hm, load_model_onnx,
          honnx]
  · cases hm : load_model_max env st.models p mid with
    | ok r =>
        unfold load_model
        obtain ⟨models', meta⟩ := r
        simp [hp, hmid, hex, hfresh, hmaxav, hm, exOk, loadOkResponse]
        cases meta <;> simp [loadOkResponse, emptyLoadResponse]
    | error e =>
        cases ho : env.onnxLoad p with
        | ok meta =>
            unfold load_model
            simp [hp, hmid, hex, hfresh, hmaxav, honnxav, hm,
              load_model_onnx, ho, exOk, loadOkResponse, emptyLoadResponse]
        | error e2 =>
            unfold load_model
            simp [hp, hmid, hex, hfresh, hmaxav, honnxav, hm,
              load_model_onnx, ho, exOk, emptyLoadResponse]

/-- An HTTP-bridge environment where MAX is available but its load raises,
while ONNX Runtime succeeds — the fallback situation of C2. -/
def envMaxFallback : MaxEnv :=
  { maxAvailable := true, onnxAvailable := true, maxSessionOk := true,
    fileExists := fun _ => true,
    maxLoad := fun _ => .error "MAX graph compilation failed",
    onnxLoad := fun _ => .ok { input_names := ["input"],
                               output_names := ["output"],
                               input_shapes := [[1, 4]],
                               providers := ["CPUExecutionProvider"] },
    runMax := fun _ _ => .error "MAX graph compilation failed",
    runOnnx := fun _ _ => .ok (.num 0) }

/-- Witness for C2: the concrete fallback environment produces the plain
ONNX success response. -/
theorem C2_auto_fallback_invisible_witness :
    (load_model envMaxFallback { models := [], stats := initStats }
        (some "demo.onnx") (some "demo") "auto" 1).1 =
      loadOkResponse "demo" 1 (.onnxMeta
        { input_names := ["input"], output_names := ["output"],
          input_shapes := [[1, 4]], providers := ["CPUExecutionProvider"] }) :=
  (C2_auto_fallback_invisible envMaxFallback
      { models := [], stats := initStats } "demo.onnx" "demo" 1 rfl rfl
      (by decide) (by decide) rfl rfl).1 _ (by decide) rfl

/-! ## C3 — the running mean of inference latencies -/

/-- An HTTP-bridge state holding one ONNX model `"m"` and fresh stats. -/
def stLoaded : ServerState :=
  { models := [("m", { backend := .onnx, path := "m.onnx" })],
    stats := initStats }

theorem predict_success_stats (env : MaxEnv) (s : ServerState) (mid : String)
    (inp : NList) (t : ℚ) (entry : ModelEntry)
    (hmid : mid ≠ "")
    (hentry : List.lookup mid s.models = some entry)
    (hok : exOk (runBackend env entry (prepareInput inp)) = true) :
    (predict env s (some mid) (some inp) t).2.models = s.models ∧
    (predict env s (some mid) (some inp) t).2.stats.inference_total
      = s.stats.inference_total + 1 ∧
    (predict env s (some mid) (some inp) t).2.stats.avg_inference_time_ms
      = (s.stats.avg_inference_time_ms * (s.stats.inference_total : ℚ) + t)
          / ((s.stats.inference_total : ℚ) + 1) := by
  cases hr : runBackend env entry (prepareInput inp) with
  | error e => rw [hr] at hok; simp [exOk] at hok
  | ok out =>
      unfold predict
      simp [hmid, hentry, hr, optStr]

/-- Issue a sequence of `/predict` requests for one model, one per recorded
latency, threading the server state. -/
def runPredicts (env : MaxEnv) (st : ServerState) (mid : String)
    (inp : NList) : List ℚ → ServerState
  | [] => st
  | t :: ts =>
      runPredicts env ((predict env st (some mid) (some inp) t).2) mid inp ts

theorem runPredicts_stats (env : MaxEnv) (mid : String) (inp : NList)
    (entry : ModelEntry) (hmid : mid ≠ "")
    (hok : ∀ tns : TensorQ, exOk (runBackend env entry tns) = true) :
    ∀ (ts : List ℚ) (s : ServerState),
      List.lookup mid s.models = some entry →
      (runPredicts env s mid inp ts).models = s.models ∧
      (runPredicts env s mid inp ts).stats.inference_total
        = s.stats.inference_total + ts.length ∧
      (runPredicts env s mid inp ts).stats.avg_inference_time_ms
          * (((runPredicts env s mid inp ts).stats.inference_total : ℚ))
        = s.stats.avg_inference_time_ms * ((s.stats.inference_total : ℚ))
            + ts.sum := by
  intro ts
  induction ts with
  | nil => intro s hs; simp [runPredicts]
  | cons t ts ih =>
      intro s hs
      obtain ⟨hm, hn, ha⟩ :=
        predict_success_stats env s mid inp t entry hmid hs
          (hok (prepareInput inp))
      set s1 := (predict env s (some mid) (some inp) t).2 with hs1
      have hs1lookup : List.lookup mid s1.models = some entry := by
        rw [hm]; exact hs
      obtain ⟨im, inn, ia⟩ := ih s1 hs1lookup
      have hnz : ((s.stats.inference_total : ℚ) + 1) ≠ 0 := by
        positivity
      refine ⟨by rw [runPredicts, ← hs1, im, hm], ?_, ?_⟩
      · rw [runPredicts, ← hs1, inn, hn]
        simp [List.length_cons]
        omega
      · rw [runPredicts, ← hs1, ia, ha, hn]
        simp only [List.sum_cons]
        push_cast
        field_simp
        ring

/-- C3 counterexample: `inference_total` is incremented even by a failed
`/predict` (here one for the never-loaded id `"ghost"`), without a mean
update; the next successful predict with latency 10 then divides by 2,
leaving `avg_inference_time_ms = 5` although the only recorded latency is 10
— the claimed equality with the arithmetic mean fails under this
interleaving. -/
theorem C3_counterexample_failed_predict_skews_mean :
    (let s1 := (predict envMaxDemo stLoaded (some "ghost")
                  (some (.num 1)) 5).2
     let r2 := predict envMaxDemo s1 (some "m") (some (.num 2)) 10
     (predict envMaxDemo stLoaded (some "ghost") (some (.num 1)) 5).1.success
         = false ∧
       r2.1.success = true ∧
       r2.2.stats.avg_inference_time_ms = 5 ∧
       r2.2.stats.avg_inference_time_ms ≠
         ([(10 : ℚ)].sum / (([(10 : ℚ)].length : ℚ)))) := by
  have e1 : (("ghost" : String) = "") = False := by simp
  have e2 : (("m" : String) = "") = False := by simp
  have e3 : (("ghost" : String) == "m") = false := by simp
  have e4 : (("m" : String) == "m") = true := by simp
  have e5 : (some ("ghost" : String) = none) = False := by simp
  have e6 : (some ("m" : String) = none) = False := by simp
  dsimp only
  refine ⟨rfl, rfl, ?_, ?_⟩ <;>
    norm_num [predict, stLoaded, envMaxDemo, optStr, initStats, runBackend,
      List.lookup, e1, e2, e3, e4, e5, e6]

/-- C3 amended: starting from fresh stats, after N consecutive *successful*
`/predict` calls — with no failed predict and no `/batch_predict`
interleaved — `avg_inference_time_ms` equals the arithmetic mean of the N
recorded latencies exactly (the incremental update
`avg = (avg*(n-1) + x)/n` telescopes to the mean); a failed predict or a
batch call breaks the equality because each inflates `inference_total`
without a matching mean update. -/
theorem C3_amended_mean_of_uninterrupted_successes
    (env : MaxEnv) (st : ServerState) (mid : String) (inp : NList)
    (ts : List ℚ) (entry : ModelEntry)
    (hmid : mid ≠ "")
    (hentry : List.lookup mid st.models = some entry)
    (hok : ∀ tns : TensorQ, exOk (runBackend env entry tns) = true)
    (htotal : st.stats.inference_total = 0)
    (havg : st.stats.avg_inference_time_ms = 0)
    (hne : ts ≠ []) :
    (runPredicts env st mid inp ts).stats.avg_inference_time_ms
        = ts.sum / ((ts.length : ℚ)) ∧
    (runPredicts env st mid inp ts).stats.inference_total = ts.length := by
  obtain ⟨-, hn, ha⟩ := runPredicts_stats env mid inp entry hmid hok ts st
    hentry
  rw [htotal] at hn
  have hn' : (runPredicts env st mid inp ts).stats.inference_total
      = ts.length := by omega
  refine ⟨?_, hn'⟩
  rw [hn', htotal, havg] at ha
  have hlen0 : ts.length ≠ 0 := by
    intro h
    exact hne (List.length_eq_zero.mp h)
  have hlen : ((ts.length : ℚ)) ≠ 0 := Nat.cast_ne_zero.mpr hlen0
  field_simp
  rw [ha]
  simp

/-- Witness for C3: latencies 10 and 20 from fresh stats yield mean 15. -/
theorem C3_amended_mean_witness :
    (runPredicts envMaxDemo stLoaded "m" (.num 1)
        [10, 20]).stats.avg_inference_time_ms
      = ([(10 : ℚ), 20].sum / ((([(10 : ℚ), 20].length : ℚ)))) ∧
    (runPredicts envMaxDemo stLoaded "m" (.num 1)
        [10, 20]).stats.inference_total = 2 :=
  C3_amended_mean_of_uninterrupted_successes envMaxDemo stLoaded "m"
    (.num 1) [10, 20] { backend := .onnx, path := "m.onnx" }
    (by decide) rfl (fun _ => rfl) rfl rfl (by decide)

/-! ## C4 — which calls update `inference_total` and the running mean -/

/-- C4 counterexample: a failing `/predict` (unloaded id `"ghost"`, elapsed
time 10) increments `inference_total` but leaves the running mean at 0,
whereas the claimed update with the call's elapsed time would give 10; and a
successful `/batch_predict` adds its batch size to `inference_total` without
touching the running mean. -/
theorem C4_counterexample_failed_predict_no_mean_update :
    (let r := predict envMaxDemo stLoaded (some "ghost") (some (.num 1)) 10
     r.1.success = false ∧
       r.2.stats.inference_total = stLoaded.stats.inference_total + 1 ∧
       r.2.stats.avg_inference_time_ms = 0 ∧ (0 : ℚ) ≠ 10) ∧
    (let rb := batch_predict envMaxDemo stLoaded (some "m")
        (some [.num 1, .num 2]) 10
     rb.1.success = true ∧
       rb.2.stats.inference_total = stLoaded.stats.inference_total + 2 ∧
       rb.2.stats.avg_inference_time_ms
         = stLoaded.stats.avg_inference_time_ms) := by
  decide

/-- C4 amended: every `/predict` call — also a failing one — increments
`inference_total` by exactly one, but the running mean is updated only by
successful `/predict` calls; `/batch_predict` never updates the running mean,
adds its batch size to `inference_total` only when the backend call succeeds,
and adds nothing when it fails. -/
theorem C4_amended_inference_total_and_mean_updates
    (env : MaxEnv) (st : ServerState) (model_id : Option String)
    (inp : Option NList) (inputs : List NList) (t : ℚ) :
    ((predict env st model_id inp t).2.stats.inference_total
       = st.stats.inference_total + 1) ∧
    ((predict env st model_id inp t).1.success = false →
      (predict env st model_id inp t).2.stats.avg_inference_time_ms
        = st.stats.avg_inference_time_ms) ∧
    ((batch_predict env st model_id (some inputs) t).2.stats.avg_inference_time_ms
       = st.stats.avg_inference_time_ms) ∧
    ((batch_predict env st model_id (some inputs) t).1.success = true →
      (batch_predict env st model_id (some inputs) t).2.stats.inference_total
        = st.stats.inference_total + inputs.length) ∧
    ((batch_predict env st model_id (some inputs) t).1.success = false →
      (batch_predict env st model_id (some inputs) t).2.stats.inference_total
        = st.stats.inference_total) := by
  refine ⟨?_, ?_, ?_, ?_, ?_⟩
  · unfold predict
    dsimp only
    repeat' split
    all_goals rfl
  · unfold predict
    dsimp only
    repeat' split
    all_goals intro h
    all_goals first | rfl | simp_all
  · unfold batch_predict
    dsimp only
    repeat' split
    all_goals rfl
  · unfold batch_predict
    dsimp only
    repeat' split
    all_goals intro h
    all_goals first | rfl | simp_all
  · unfold batch_predict
    dsimp only
    repeat' split
    all_goals intro h
    all_goals first | rfl | simp_all

/-- Witness for C4: the failing predict and the successful batch of the
counterexample, through the amended theorem. -/
theorem C4_amended_inference_total_and_mean_updates_witness :
    ((predict envMaxDemo stLoaded (some "ghost")
        (some (.num 1)) 10).2.stats.inference_total
      = stLoaded.stats.inference_total + 1) ∧
    ((predict envMaxDemo stLoaded (some "ghost")
        (some (.num 1)) 10).2.stats.avg_inference_time_ms
      = stLoaded.stats.avg_inference_time_ms) ∧
    ((batch_predict envMaxDemo stLoaded (some "m")
        (some [.num 1, .num 2]) 10).2.stats.inference_total
      = stLoaded.stats.inference_total + 2) :=
  ⟨(C4_amended_inference_total_and_mean_updates envMaxDemo stLoaded
      (some "ghost") (some (.num 1)) [] 10).1,
   (C4_amended_inference_total_and_mean_updates envMaxDemo stLoaded
      (some "ghost") (some (.num 1)) [] 10).2.1 (by decide),
   (C4_amended_inference_total_and_mean_updates envMaxDemo stLoaded
      (some "m") (some (.num 1)) [.num 1, .num 2] 10).2.2.2.1 (by decide)⟩

/-! ## C5 — int8 quantization encode/decode -/

/-- C5 counterexample: for `x = 3.7`, `scale = 0.5`, `zero_point = 10` the
claimed encode `round(x/scale + zero_point)` (clamped or not) gives 17, but
the program casts the input to int8 at `np.array(..., dtype=int8)` before the
quantization branch can run, producing `trunc(3.7) = 3` — the scale and
zero point are never applied. -/
theorem C5_counterexample_encode_ignores_quantization :
    coralEncodeInput (37/10) (1/2) 10 = 3 ∧
      specQuantizeClamped (37/10) (1/2) 10 = 17 ∧
      coralEncodeInput (37/10) (1/2) 10
        ≠ specQuantizeClamped (37/10) (1/2) 10 := by
  norm_num [coralEncodeInput, truncQ, toInt8, specQuantizeClamped,
    roundHalfEven]

/-- C5 amended: for an `int8` model fed float values the executed encode is
line 50's direct dtype cast — truncation toward zero wrapped into `[-128,
127]` by two's complement — which ignores `scale` and `zero_point` entirely
(the quantization formula of lines 60–62 is dead code, since the array is
already int8 when its float32 guard is tested); the encode result always
lies in `[-128, 127]`, is congruent to `trunc(x)` modulo 256, and equals
`trunc(x)` whenever that value is already in range.  The decode direction is
live and is exactly the spec's `x = (q - zero_point) * scale`. -/
theorem C5_amended_truncating_encode
    (x scale zero_point scale' zero_point' : ℚ) (q : ℤ) :
    (coralEncodeInput x scale zero_point
        = coralEncodeInput x scale' zero_point') ∧
    (-128 ≤ coralEncodeInput x scale zero_point ∧
       coralEncodeInput x scale zero_point ≤ 127) ∧
    ((256 : ℤ) ∣ truncQ x - coralEncodeInput x scale zero_point) ∧
    ((-128 ≤ truncQ x ∧ truncQ x ≤ 127) →
      coralEncodeInput x scale zero_point = truncQ x) ∧
    dequantizeOutput q scale zero_point = specDequantize q scale zero_point := by
  set r := truncQ x with hr
  have hmod : coralEncodeInput x scale zero_point = (r + 128) % 256 - 128 :=
    rfl
  have hnn : 0 ≤ (r + 128) % 256 :=
    Int.emod_nonneg _ (by norm_num)
  have hlt : (r + 128) % 256 < 256 :=
    Int.emod_lt_of_pos _ (by norm_num)
  have hdm := Int.ediv_add_emod (r + 128) 256
  refine ⟨rfl, ⟨by omega, by omega⟩, ⟨(r + 128) / 256, by omega⟩, ?_, rfl⟩
  rintro ⟨hlo, hhi⟩
  have heq : (r + 128) % 256 = r + 128 :=
    Int.emod_eq_of_lt (by omega) (by omega)
  omega

/-- Witness for C5 at `x = 3.5`: the encode truncates to 3 whatever the
quantization parameters are. -/
theorem C5_amended_truncating_encode_witness :
    coralEncodeInput (7/2) (1/2) 10 = truncQ (7/2) ∧
      coralEncodeInput (7/2) (1/2) 10 = coralEncodeInput (7/2) 1 0 :=
  ⟨(C5_amended_truncating_encode (7/2) (1/2) 10 1 0 0).2.2.2.1
     (by norm_num [truncQ]),
   (C5_amended_truncating_encode (7/2) (1/2) 10 1 0 0).1⟩

/-! ## C6 — batch-dimension handling -/

/-- C6 counterexample: a model whose declared input shape is `[1, 2, 2]`
(rank 3) fed a rank-2 tensor — exactly one dimension short — is *not* given
a batch dimension: the rank-1 reshape rule leaves it at rank 2, so the
backend does not receive a tensor of the declared rank. -/
theorem C6_counterexample_rank_gap_not_batched :
    (let declared_input_shape : List Int := [1, 2, 2]
     let raw := NList.arr [NList.arr [NList.num 1, NList.num 2],
                           NList.arr [NList.num 3, NList.num 4]]
     (nshape raw).length + 1 = declared_input_shape.length ∧
       (prepareInput raw).shape.length = 2 ∧
       (prepareInput raw).shape.length ≠ declared_input_shape.length) := by
  decide

/-- C6 amended: the bridges hand the backend exactly `prepareInput raw`, and
`prepareInput` prepends a batch dimension of size 1 only when the supplied
tensor is one-dimensional (`reshape(1, -1)`), never consulting the model's
declared input shape; any tensor of other rank is passed through unchanged.
(The claim's conclusion therefore holds exactly when the declared rank
is 2.) -/
theorem C6_amended_batch_dim_only_rank_one (raw : NList) (env : MaxEnv)
    (models : List (String × ModelEntry)) (mid : String)
    (entry : ModelEntry) (hentry : List.lookup mid models = some entry) :
    predict_onnx env models mid raw
        = env.runOnnx entry.path (prepareInput raw) ∧
    predict_max env models mid raw
        = env.runMax entry.path (prepareInput raw) ∧
    ((nshape raw).length = 1 →
      (prepareInput raw).shape = 1 :: nshape raw) ∧
    ((nshape raw).length ≠ 1 → prepareInput raw = toTensor raw) ∧
    (prepareInput raw).data = nflatten raw := by
  refine ⟨?_, ?_, ?_, ?_, ?_⟩
  · unfold predict_onnx
    rw [hentry]
  · unfold predict_max
    rw [hentry]
  · intro h1
    simp [prepareInput, ensureBatch, toTensor, h1]
  · intro h1
    simp [prepareInput, ensureBatch, toTensor, h1]
  · unfold prepareInput ensureBatch toTensor
    dsimp only
    split <;> rfl

/-- Witness for C6: a rank-1 input of length 2 becomes the rank-2 tensor
`(1, 2)` handed to the ONNX backend of model `"m"`. -/
theorem C6_amended_batch_dim_only_rank_one_witness :
    (prepareInput (NList.arr [NList.num 1, NList.num 2])).shape
        = 1 :: nshape (NList.arr [NList.num 1, NList.num 2]) ∧
    predict_onnx envMaxDemo [("m", { backend := .onnx, path := "m.onnx" })]
        "m" (NList.arr [NList.num 1, NList.num 2])
      = envMaxDemo.runOnnx "m.onnx"
          (prepareInput (NList.arr [NList.num 1, NList.num 2])) :=
  ⟨(C6_amended_batch_dim_only_rank_one
      (NList.arr [NList.num 1, NList.num 2]) envMaxDemo
      [("m", { backend := .onnx, path := "m.onnx" })] "m"
      { backend := .onnx, path := "m.onnx" } rfl).2.2.1 (by decide),
   (C6_amended_batch_dim_only_rank_one
      (NList.arr [NList.num 1, NList.num 2]) envMaxDemo
      [("m", { backend := .onnx, path := "m.onnx" })] "m"
      { backend := .onnx, path := "m.onnx" } rfl).1⟩
